import Mathlib

/-!
Verification of the trace-correlation and stream-cancellation subsystem of
the `observability` repository (files `telemetry.py`, `echo_client.py`,
`echo_server.py`).

The Python code is shallowly embedded: the `random` module is modelled as an
explicit oracle (an infinite stream of naturals together with a cursor), the
single-slot trace-id override of `SettableIdGenerator` is an `Option Nat`,
and the mutating methods become state-passing functions.  Machine integers
are `Nat` with explicit bounds (`% 2 ^ 128`, `% 2 ^ 64`) where the Python
code draws bounded random values.
-/

namespace Observability

/-- The `random` module, modelled as an oracle: an infinite stream of
naturals `seq` together with the position `idx` of the next unread value. -/
structure RandState where
  seq : Nat → Nat
  idx : Nat

/-- `random.getrandbits(k)`: draws the next oracle value, truncated to `k`
bits, and advances the cursor. -/
def getrandbits (k : Nat) (r : RandState) : Nat × RandState :=
  (r.seq r.idx % 2 ^ k, ⟨r.seq, r.idx + 1⟩)

/-- `SettableIdGenerator` (telemetry.py lines 24-42; an identical copy lives
in echo_client.py lines 26-44): the only mutable field is `_next_trace_id`,
a single-slot optional override. `__init__` sets it to `None`. -/
structure SettableIdGenerator where
  next_trace_id : Option Nat
deriving DecidableEq

/-- The state `__init__` produces: `self._next_trace_id = None`. -/
def SettableIdGenerator.mk' : SettableIdGenerator := ⟨none⟩

/-- `set_next_trace_id(trace_uuid)`: `self._next_trace_id = trace_uuid.int`.
The argument is the 128-bit integer value of the UUID. -/
def set_next_trace_id (g : SettableIdGenerator) (trace_uuid : Nat) :
    SettableIdGenerator :=
  { g with next_trace_id := some trace_uuid }

/-- `generate_trace_id()`: if the override slot is non-`None`, take its
value, clear the slot and return the value; otherwise return
`random.getrandbits(128)`.  Returns (value, new generator state, new random
state). -/
def generate_trace_id (g : SettableIdGenerator) (r : RandState) :
    Nat × SettableIdGenerator × RandState :=
  match g.next_trace_id with
  | some trace_id => (trace_id, { next_trace_id := none }, r)
  | none =>
    let (v, r') := getrandbits 128 r
    (v, g, r')

/-- `generate_span_id()`: `return random.getrandbits(64)`.  The generator
state is untouched. -/
def generate_span_id (g : SettableIdGenerator) (r : RandState) :
    Nat × SettableIdGenerator × RandState :=
  let (v, r') := getrandbits 64 r
  (v, g, r')

/-!
Interleaving semantics for two threads running `generate_trace_id`
concurrently on one shared generator.  CPython executes the method as a
sequence of bytecode instructions and may switch threads between any two of
them; the method holds no lock.  Each thread is modelled with two atomic
steps, each of which is coarser than (a contiguous run of) the real
bytecodes, so every interleaving of the model corresponds to a real
interleaving:
  step 1 (`read`): evaluate `self._next_trace_id` for the `if` test and the
    assignment `trace_id = self._next_trace_id` — both loads, with no store
    by this thread in between;
  step 2 (`resolve`): on a non-`None` read, execute
    `self._next_trace_id = None; return trace_id`; on a `None` read, execute
    `return random.getrandbits(128)`.
-/

/-- Program counter of one thread inside `generate_trace_id`. -/
inductive ThreadPc where
  | toRead
  | toResolve
  | done
deriving DecidableEq

/-- One thread: where it is, what it read from the slot, and the value it
returned (once finished). -/
structure GenThread where
  pc : ThreadPc
  readVal : Option Nat
  result : Option Nat
deriving DecidableEq

/-- A two-thread configuration: the shared `_next_trace_id` slot, the shared
random oracle, and both threads. -/
structure GenConf where
  slot : Option Nat
  rand : RandState
  t0 : GenThread
  t1 : GenThread

/-- One atomic step of a single thread of `generate_trace_id`. -/
def genThreadStep (slot : Option Nat) (r : RandState) (t : GenThread) :
    Option Nat × RandState × GenThread :=
  match t.pc with
  | .toRead => (slot, r, { t with pc := .toResolve, readVal := slot })
  | .toResolve =>
    match t.readVal with
    | some v => (none, r, { t with pc := .done, result := some v })
    | none =>
      let (v, r') := getrandbits 128 r
      (slot, r', { t with pc := .done, result := some v })
  | .done => (slot, r, t)

/-- Run one step of the scheduled thread (`false` = thread 0, `true` =
thread 1). -/
def genConfStep (c : GenConf) (which : Bool) : GenConf :=
  if which then
    let (s, r, t) := genThreadStep c.slot c.rand c.t1
    { c with slot := s, rand := r, t1 := t }
  else
    let (s, r, t) := genThreadStep c.slot c.rand c.t0
    { c with slot := s, rand := r, t0 := t }

/-- Run a whole schedule. -/
def runSchedule (c : GenConf) (sched : List Bool) : GenConf :=
  sched.foldl genConfStep c

/-- Initial configuration: override armed to `id`, both threads about to
execute `generate_trace_id`. -/
def armedConf (id : Nat) : GenConf :=
  { slot := some id
    rand := ⟨fun _ => 0, 0⟩
    t0 := { pc := .toRead, readVal := none, result := none }
    t1 := { pc := .toRead, readVal := none, result := none } }

/-!
Process-level model for `create_service_telemetry` (telemetry.py lines
54-96).  The OpenTelemetry collaborators are opaque: a `TracerProvider` and
a `LoggingHandler` are identified by the fresh ids the process hands out.
Python's `logging` module is process-global state: `logging.getLogger(name)`
returns the per-name singleton from the module's registry, where the empty
name and the name "root" both resolve to the root logger
(`logging.getLogger` returns `root` when `not name or name == root.name`,
and `root.name == "root"`).
-/

/-- `logging.INFO`. -/
def INFO : Nat := 20

/-- `logging.WARNING`, the root logger's default level. -/
def WARNING : Nat := 30

/-- The observable state of one `logging.Logger`: its level and the list of
attached handler ids, in attachment order. -/
structure PyLogger where
  level : Nat
  handlers : List Nat
deriving DecidableEq

/-- The `logging` module registry: the root logger plus the table of named
loggers (total map; absent names map to the fresh-logger default). -/
structure LoggingRegistry where
  rootLogger : PyLogger
  table : String → PyLogger

/-- Does `logging.getLogger(name)` resolve to the root logger? -/
def isRootName (name : String) : Bool :=
  name = "" || name = "root"

/-- The identity of the `Logger` object `logging.getLogger(name)` returns:
two names alias the same object iff they resolve to the same key. -/
def resolveLoggerKey (name : String) : String :=
  if isRootName name then "root" else name

/-- Read the logger `logging.getLogger(name)` denotes. -/
def getLoggerState (reg : LoggingRegistry) (name : String) : PyLogger :=
  if isRootName name then reg.rootLogger else reg.table name

/-- Write back the logger `logging.getLogger(name)` denotes. -/
def setLoggerState (reg : LoggingRegistry) (name : String) (l : PyLogger) :
    LoggingRegistry :=
  if isRootName name then { reg with rootLogger := l }
  else { reg with table := fun k => if k = name then l else reg.table k }

/-- `logger.setLevel(lvl)` on `logging.getLogger(name)`. -/
def loggerSetLevel (reg : LoggingRegistry) (name : String) (lvl : Nat) :
    LoggingRegistry :=
  setLoggerState reg name { getLoggerState reg name with level := lvl }

/-- `logger.addHandler(h)` on `logging.getLogger(name)`: appends to the
handler list. -/
def loggerAddHandler (reg : LoggingRegistry) (name : String) (h : Nat) :
    LoggingRegistry :=
  setLoggerState reg name
    { getLoggerState reg name with
      handlers := (getLoggerState reg name).handlers ++ [h] }

/-- A log record emitted through `logging.getLogger(name)` is delivered to
each attached handler once, in order (each `LoggingHandler` exports it to
its provider); the list of deliveries of one record. -/
def emitRecordDeliveries (reg : LoggingRegistry) (name : String) :
    List Nat :=
  (getLoggerState reg name).handlers

/-- Process-global state touched (or deliberately not touched) by
telemetry setup: the global tracer/logger providers (set only by
`trace.set_tracer_provider` / `set_logger_provider`, which
`create_service_telemetry` never calls), the `logging` registry, all
`SettableIdGenerator` instances allocated so far, and fresh-id counters for
tracer providers and logging handlers. -/
structure ProcState where
  globalTracerProvider : Option Nat
  globalLoggerProvider : Option Nat
  registry : LoggingRegistry
  generators : List SettableIdGenerator
  nextProviderId : Nat
  nextHandlerId : Nat

/-- The value `create_service_telemetry` returns: the tracer is identified
by the private provider it came from, the logger by its registry key, the
generator by its index in the process allocation list. -/
structure ServiceTelemetry where
  tracer : Nat
  loggerKey : String
  id_generator : Nat
deriving DecidableEq

/-- `create_service_telemetry(service_name)` (telemetry.py lines 54-96):
allocates a fresh `SettableIdGenerator` and a fresh private
`TracerProvider` built on it, takes a tracer from that provider (not the
global one), builds a private `LoggerProvider`, then mutates the
process-global logger `logging.getLogger(service_name)`: sets its level to
`INFO` and attaches one fresh `LoggingHandler`.  It never calls
`trace.set_tracer_provider` or `set_logger_provider`. -/
def create_service_telemetry (service_name : String) (st : ProcState) :
    ServiceTelemetry × ProcState :=
  let genIdx := st.generators.length
  let provider := st.nextProviderId
  let handler := st.nextHandlerId
  let reg := loggerAddHandler
    (loggerSetLevel st.registry service_name INFO) service_name handler
  ( { tracer := provider
      loggerKey := resolveLoggerKey service_name
      id_generator := genIdx }
  , { st with
      registry := reg
      generators := st.generators ++ [SettableIdGenerator.mk']
      nextProviderId := provider + 1
      nextHandlerId := handler + 1 } )

/-- A process state at interpreter startup: no global providers installed,
the `logging` registry fresh (root logger at its default `WARNING` level
with no handlers; named loggers unconfigured at level `NOTSET = 0`), no
generators allocated. -/
def initProcState : ProcState :=
  { globalTracerProvider := none
    globalLoggerProvider := none
    registry :=
      { rootLogger := { level := WARNING, handlers := [] }
        table := fun _ => { level := 0, handlers := [] } }
    generators := []
    nextProviderId := 0
    nextHandlerId := 0 }

/-- The generator-state effect of one call to `generate_trace_id`: an armed
slot is cleared, an empty slot stays as it is (the random draw does not
touch the generator). -/
def stateAfterGenerate (g : SettableIdGenerator) : SettableIdGenerator :=
  match g.next_trace_id with
  | some _ => { next_trace_id := none }
  | none => g

/-- One operation a caller can run against one identity's generator. -/
inductive GenOp where
  | setOp : Nat → GenOp
  | genOp : GenOp

/-- Apply one operation to the generator at index `i` of the process
allocation list (out-of-range indices leave the list unchanged). -/
def applyGenOpAt (gs : List SettableIdGenerator) (i : Nat) (op : GenOp) :
    List SettableIdGenerator :=
  match gs[i]? with
  | none => gs
  | some g =>
    match op with
    | .setOp id => gs.set i (set_next_trace_id g id)
    | .genOp => gs.set i (stateAfterGenerate g)

/-- Apply a whole sequence of operations at index `i`. -/
def applyGenOpsAt (gs : List SettableIdGenerator) (i : Nat)
    (ops : List GenOp) : List SettableIdGenerator :=
  ops.foldl (fun acc op => applyGenOpAt acc i op) gs

/-- Two successive `create_service_telemetry` calls in one process:
returns (first identity, second identity, final process state). -/
def twoIdentities (n1 n2 : String) (st : ProcState) :
    ServiceTelemetry × ServiceTelemetry × ProcState :=
  let p1 := create_service_telemetry n1 st
  let p2 := create_service_telemetry n2 p1.2
  (p1.1, p2.1, p2.2)

/-- Modelled from the spec: an event of the streaming Echo producer.  The
streaming producer itself is not under `src/` (the repository's
`echo_server.py` contains only the unary `Echo` handler); §4.4 of the spec
defines its contract. -/
inductive ProducerEvent where
  | emit : Nat → ProducerEvent
  | cancelled : ProducerEvent
deriving DecidableEq

/-- Modelled from the spec: the producer loop of a streaming exchange with
`remaining` messages still to produce and `i` the index of the next one.
Before producing message `i` the producer checks exchange liveness
(`live i` = consumer still listening just before message `i`); if not live
it stops immediately, recording the "consumer cancelled" annotation once;
otherwise it emits message `i` and continues. -/
def producerFrom (live : Nat → Bool) (i remaining : Nat) :
    List ProducerEvent :=
  match remaining with
  | 0 => []
  | r + 1 =>
    if live i then ProducerEvent.emit i :: producerFrom live (i + 1) r
    else [ProducerEvent.cancelled]

/-- Modelled from the spec: a whole streaming exchange configured to emit
`n` messages, numbered from 1. -/
def producerRun (live : Nat → Bool) (n : Nat) : List ProducerEvent :=
  producerFrom live 1 n

/-- Liveness seen by the producer when the consumer closes the exchange
right after receiving message `k`: the check before message `i` succeeds
iff `i ≤ k`. -/
def closesAfter (k : Nat) : Nat → Bool :=
  fun i => decide (i ≤ k)

/-- The messages the consumer observes: the emitted indices, in order. -/
def messagesSeen (evs : List ProducerEvent) : List Nat :=
  evs.filterMap fun e =>
    match e with
    | ProducerEvent.emit i => some i
    | ProducerEvent.cancelled => none

/-- How many "consumer cancelled" annotations were recorded. -/
def cancelCount (evs : List ProducerEvent) : Nat :=
  (evs.filter fun e => e = ProducerEvent.cancelled).length

/-- One lowercase hex digit: 0-9 then a-f (48 is the code of the character
for zero, 87 + 10 = 97 the code of the letter a), as Python renders
`uuid.hex`. -/
def hexChar (d : Nat) : Char :=
  if d < 10 then Char.ofNat (48 + d) else Char.ofNat (87 + d)

/-- Numeric value of a lowercase hex digit; the inverse rendering an
external tool applies when it re-parses the announced identifier
(`int(s, 16)` restricted to the characters `hexChar` produces). -/
def hexVal (c : Char) : Nat :=
  if 97 ≤ c.toNat then c.toNat - 87 else c.toNat - 48

/-- Is `c` one of the sixteen lowercase hex digit characters? -/
def isLowerHexDigit (c : Char) : Bool :=
  (48 ≤ c.toNat && c.toNat ≤ 57) || (97 ≤ c.toNat && c.toNat ≤ 102)

/-- Big-endian, zero-padded hex digits of `n`, `w` characters wide. -/
def toHexCore : Nat → Nat → List Char
  | _, 0 => []
  | n, w + 1 => toHexCore (n / 16) w ++ [hexChar (n % 16)]

/-- `trace_uuid.hex` (echo_client.py line 86): the 128-bit identifier as 32
lowercase hex characters, zero-padded, no separators. -/
def uuidHex (n : Nat) : String :=
  ⟨toHexCore n 32⟩

/-- Re-parse a hex string to the identifier it encodes. -/
def fromHexChars (cs : List Char) : Nat :=
  cs.foldl (fun acc c => 16 * acc + hexVal c) 0

/-- Re-parse a hex string to the identifier it encodes. -/
def fromHex (s : String) : Nat :=
  fromHexChars s.data

/-- The first announcement line `do_echo` prints (echo_client.py line 90):
the Jaeger trace deep link. -/
def jaegerLine (trace_id : String) : String :=
  "Jaeger: http://localhost:16686/trace/" ++ trace_id

/-- The second announcement line up to the trace identifier
(echo_client.py line 91). -/
def kibanaPre : String :=
  "Kibana: http://localhost:5601/app/discover#/?_g=(filters:!(),refreshInterval:(pause:!t,value:60000),time:(from:now-15m,to:now))&_a=(columns:!(message,log.level,service.name),filters:!(),query:(language:kuery,query:\x27trace.id:\""

/-- The second announcement line after the trace identifier. -/
def kibanaPost : String :=
  "\"\x27))"

/-- The second announcement line `do_echo` prints: the Kibana discover link
whose query filters on the trace identifier. -/
def kibanaLine (trace_id : String) : String :=
  kibanaPre ++ trace_id ++ kibanaPost

/-- The correlation announcement of `do_echo` (echo_client.py lines 84-91):
the two URL-bearing lines printed for one trace, keyed by the hex-rendered
trace identifier. -/
def announceTrace (trace_id : String) : List String :=
  [jaegerLine trace_id, kibanaLine trace_id]

end Observability

namespace Observability

/-- C1: after `set_next_trace_id id`, the first `generate_trace_id` returns
exactly `id` (and clears the slot), and the second `generate_trace_id`, with
no intervening set, takes the random branch: it returns the oracle's next
128-bit draw (so it differs from `id` unless the random draw happens to
collide), leaving the slot empty. -/
theorem set_then_generate_twice (g : SettableIdGenerator) (id : Nat)
    (r : RandState) :
    (generate_trace_id (set_next_trace_id g id) r).1 = id ∧
    (generate_trace_id (set_next_trace_id g id) r).2.1.next_trace_id = none ∧
    (generate_trace_id (set_next_trace_id g id) r).2.2 = r ∧
    (generate_trace_id (generate_trace_id (set_next_trace_id g id) r).2.1
        (generate_trace_id (set_next_trace_id g id) r).2.2).1
      = r.seq r.idx % 2 ^ 128 := by
  refine ⟨rfl, rfl, rfl, ?_⟩
  simp [generate_trace_id, set_next_trace_id, getrandbits]

/-- C3: the override slot is the two-state machine {Empty, Armed}:
`set_next_trace_id` sends any state to Armed(id); `generate_trace_id` from
Armed(id) returns `id` and moves to Empty; `generate_trace_id` from Empty
stays Empty and returns a random 128-bit draw (total function: no error
path). -/
theorem override_state_machine (g : SettableIdGenerator) (id v : Nat)
    (r : RandState) :
    (set_next_trace_id g id).next_trace_id = some id ∧
    generate_trace_id ⟨some v⟩ r = (v, ⟨none⟩, r) ∧
    (generate_trace_id ⟨none⟩ r).2.1 = (⟨none⟩ : SettableIdGenerator) ∧
    (generate_trace_id ⟨none⟩ r).1 = r.seq r.idx % 2 ^ 128 := by
  refine ⟨rfl, rfl, ?_, ?_⟩ <;>
    simp [generate_trace_id, getrandbits]

/-- C5: `set_next_trace_id` is total (it succeeds on every generator state
and every input, yielding Armed of its argument), and a second set before a
generate silently replaces the first: after `set a` then `set b`, the next
`generate_trace_id` returns `b`. -/
theorem set_is_total_and_last_write_wins (g : SettableIdGenerator)
    (a b : Nat) (r : RandState) :
    (set_next_trace_id g a).next_trace_id = some a ∧
    set_next_trace_id (set_next_trace_id g a) b
      = ({ next_trace_id := some b } : SettableIdGenerator) ∧
    (generate_trace_id (set_next_trace_id (set_next_trace_id g a) b) r).1
      = b := by
  exact ⟨rfl, rfl, rfl⟩

/-- C9: `generate_span_id` returns a value in `[0, 2 ^ 64)`, leaves the
generator state (in particular the override slot) exactly as it was, and its
result does not depend on the generator state at all: any two generator
states fed the same random state produce the same span id. -/
theorem generate_span_id_frame (g : SettableIdGenerator) (r : RandState) :
    (generate_span_id g r).1 < 2 ^ 64 ∧
    (generate_span_id g r).2.1 = g ∧
    ∀ g' : SettableIdGenerator,
      (generate_span_id g' r).1 = (generate_span_id g r).1 := by
  refine ⟨?_, rfl, fun g' => rfl⟩
  exact Nat.mod_lt _ (Nat.pos_pow_of_pos 64 (by norm_num))

/-- C2: the take-and-clear in `generate_trace_id` is NOT atomic.  With the
override armed to `1` and two threads each running the method, the schedule
"thread 0 reads, thread 1 reads, thread 0 clears and returns, thread 1
clears and returns" makes BOTH callers return the override value `1`
(and the slot ends cleared), violating the exactly-one-caller property the
design requires. -/
theorem generate_trace_id_race :
    (runSchedule (armedConf 1) [false, true, false, true]).t0.result = some 1
    ∧ (runSchedule (armedConf 1) [false, true, false, true]).t1.result
        = some 1
    ∧ (runSchedule (armedConf 1) [false, true, false, true]).slot = none :=
  ⟨rfl, rfl, rfl⟩

/-- Applying one generator operation at index `i` leaves every other index
of the allocation list unchanged. -/
theorem applyGenOpAt_getElem_ne (gs : List SettableIdGenerator)
    (i j : Nat) (op : GenOp) (h : i ≠ j) :
    (applyGenOpAt gs i op)[j]? = gs[j]? := by
  unfold applyGenOpAt
  cases hg : gs[i]? with
  | none => rfl
  | some g => cases op <;> simp [List.getElem?_set_ne h]

/-- Applying any sequence of generator operations at index `i` leaves every
other index of the allocation list unchanged. -/
theorem applyGenOpsAt_getElem_ne (ops : List GenOp) (i j : Nat) (h : i ≠ j)
    (gs : List SettableIdGenerator) :
    (applyGenOpsAt gs i ops)[j]? = gs[j]? := by
  induction ops generalizing gs with
  | nil => rfl
  | cons op ops ih =>
    calc (applyGenOpsAt gs i (op :: ops))[j]?
        = (applyGenOpsAt (applyGenOpAt gs i op) i ops)[j]? := rfl
      _ = (applyGenOpAt gs i op)[j]? := ih _
      _ = gs[j]? := applyGenOpAt_getElem_ne gs i j op h

/-- C4: two `create_service_telemetry` calls with different names allocate
distinct, fresh generators (indices differ; each slot starts Empty), and no
sequence of `set_next_trace_id` / `generate_trace_id` operations on one
identity's generator changes the stored state of the other's — since
`generate_trace_id` is a pure function of the stored generator state and
the random oracle, the other identity's results are unaffected. -/
theorem service_identity_isolation (st : ProcState) (n1 n2 : String)
    (ops : List GenOp) (h : n1 ≠ n2) :
    (twoIdentities n1 n2 st).1.id_generator
      ≠ (twoIdentities n1 n2 st).2.1.id_generator ∧
    (twoIdentities n1 n2 st).2.2.generators[(twoIdentities n1 n2
        st).1.id_generator]? = some SettableIdGenerator.mk' ∧
    (twoIdentities n1 n2 st).2.2.generators[(twoIdentities n1 n2
        st).2.1.id_generator]? = some SettableIdGenerator.mk' ∧
    (applyGenOpsAt (twoIdentities n1 n2 st).2.2.generators
        (twoIdentities n1 n2 st).1.id_generator ops)[(twoIdentities n1 n2
        st).2.1.id_generator]?
      = (twoIdentities n1 n2 st).2.2.generators[(twoIdentities n1 n2
        st).2.1.id_generator]? ∧
    (applyGenOpsAt (twoIdentities n1 n2 st).2.2.generators
        (twoIdentities n1 n2 st).2.1.id_generator ops)[(twoIdentities n1 n2
        st).1.id_generator]?
      = (twoIdentities n1 n2 st).2.2.generators[(twoIdentities n1 n2
        st).1.id_generator]? := by
  have h1 : (twoIdentities n1 n2 st).1.id_generator
      = st.generators.length := rfl
  have h2 : (twoIdentities n1 n2 st).2.1.id_generator
      = st.generators.length + 1 := by
    simp [twoIdentities, create_service_telemetry]
  have h3 : (twoIdentities n1 n2 st).2.2.generators
      = (st.generators ++ [SettableIdGenerator.mk'])
        ++ [SettableIdGenerator.mk'] := rfl
  rw [h1, h2, h3]
  have hne : st.generators.length ≠ st.generators.length + 1 := by omega
  refine ⟨hne, ?_, ?_,
    applyGenOpsAt_getElem_ne ops _ _ hne _,
    applyGenOpsAt_getElem_ne ops _ _ (Ne.symm hne) _⟩
  · rw [List.getElem?_append]
    simp [List.getElem?_concat_length]
  · have hlen : st.generators.length + 1
        = (st.generators ++ [SettableIdGenerator.mk']).length := by simp
    rw [hlen, List.getElem?_concat_length]

/-- Witness for the isolation theorem at the names of the two demo
services, starting from a fresh process, with a set followed by a
generate run against the first identity. -/
theorem service_identity_isolation_witness :
    ("echo-client" : String) ≠ "echo-service" ∧
    (applyGenOpsAt
        (twoIdentities "echo-client" "echo-service" initProcState).2.2.generators
        (twoIdentities "echo-client" "echo-service" initProcState).1.id_generator
        [GenOp.setOp 5, GenOp.genOp])[(twoIdentities "echo-client"
        "echo-service" initProcState).2.1.id_generator]?
      = (twoIdentities "echo-client" "echo-service"
        initProcState).2.2.generators[(twoIdentities "echo-client"
        "echo-service" initProcState).2.1.id_generator]? :=
  ⟨by decide,
    (service_identity_isolation initProcState "echo-client" "echo-service"
      [GenOp.setOp 5, GenOp.genOp] (by decide)).2.2.2.1⟩

/-- Reading back the logger just written under the same name returns the
written value (for root-resolving and ordinary names alike). -/
theorem getLoggerState_setLoggerState_self (reg : LoggingRegistry)
    (name : String) (l : PyLogger) :
    getLoggerState (setLoggerState reg name l) name = l := by
  unfold getLoggerState setLoggerState
  by_cases h : isRootName name <;> simp [h]

/-- The net effect of one `create_service_telemetry name` call on the
logger registered under `name`: level forced to `INFO`, one fresh handler
appended. -/
theorem getLoggerState_create (st : ProcState) (name : String) :
    getLoggerState (create_service_telemetry name st).2.registry name
      = { level := INFO
          handlers := (getLoggerState st.registry name).handlers
            ++ [st.nextHandlerId] } := by
  show getLoggerState
      (loggerAddHandler (loggerSetLevel st.registry name INFO) name
        st.nextHandlerId) name = _
  unfold loggerAddHandler loggerSetLevel
  rw [getLoggerState_setLoggerState_self,
    getLoggerState_setLoggerState_self]

/-- C8 as stated is false: `create_service_telemetry "root"` mutates the
process-wide root logger, because `logging.getLogger("root")` IS the root
logger.  On a fresh process its level changes from `WARNING` to `INFO` and
it gains the new handler. -/
theorem create_service_telemetry_root_mutation :
    (create_service_telemetry "root"
        initProcState).2.registry.rootLogger
      ≠ initProcState.registry.rootLogger ∧
    (create_service_telemetry "root"
        initProcState).2.registry.rootLogger.level = INFO ∧
    initProcState.registry.rootLogger.level = WARNING ∧
    (create_service_telemetry "root"
        initProcState).2.registry.rootLogger.handlers = [0] ∧
    initProcState.registry.rootLogger.handlers = [] := by
  refine ⟨?_, ?_, rfl, ?_, rfl⟩ <;> decide

/-- C8 amended: for every service name that does not denote the Python
root logger (any name other than the empty string and "root"),
`create_service_telemetry` leaves the global tracer provider, the global
logger provider and the root logger untouched — it never calls
`trace.set_tracer_provider` or `set_logger_provider`, and the only logger
it mutates is the one registered under the given name. -/
theorem create_service_telemetry_frame (st : ProcState) (name : String)
    (h1 : name ≠ "") (h2 : name ≠ "root") :
    (create_service_telemetry name st).2.globalTracerProvider
      = st.globalTracerProvider ∧
    (create_service_telemetry name st).2.globalLoggerProvider
      = st.globalLoggerProvider ∧
    (create_service_telemetry name st).2.registry.rootLogger
      = st.registry.rootLogger ∧
    ∀ other : String, other ≠ name → isRootName other = false →
      getLoggerState (create_service_telemetry name st).2.registry other
        = getLoggerState st.registry other := by
  have hroot : isRootName name = false := by
    simp [isRootName, h1, h2]
  refine ⟨rfl, rfl, ?_, ?_⟩
  · show (loggerAddHandler (loggerSetLevel st.registry name INFO) name
        st.nextHandlerId).rootLogger = st.registry.rootLogger
    unfold loggerAddHandler loggerSetLevel setLoggerState
    simp [hroot]
  · intro other hother hotherRoot
    show getLoggerState
        (loggerAddHandler (loggerSetLevel st.registry name INFO) name
          st.nextHandlerId) other = getLoggerState st.registry other
    unfold loggerAddHandler loggerSetLevel setLoggerState getLoggerState
    simp [hroot, hotherRoot, hother]

/-- Witness for the frame theorem at the demo service name on a fresh
process. -/
theorem create_service_telemetry_frame_witness :
    ("echo-client" : String) ≠ "" ∧ ("echo-client" : String) ≠ "root" ∧
    (create_service_telemetry "echo-client"
        initProcState).2.registry.rootLogger
      = initProcState.registry.rootLogger :=
  ⟨by decide, by decide,
    (create_service_telemetry_frame initProcState "echo-client"
      (by decide) (by decide)).2.2.1⟩

/-- C10: two `create_service_telemetry` calls with the same name return the
very same per-name logger object (same registry key), which ends up with
one additional handler per call — so one log record emitted through either
identity is delivered (exported) once per call made; only the tracer and
the generator are fresh per call. -/
theorem same_name_shares_logger (st : ProcState) (name : String) :
    (twoIdentities name name st).1.loggerKey
      = (twoIdentities name name st).2.1.loggerKey ∧
    emitRecordDeliveries (twoIdentities name name st).2.2.registry name
      = emitRecordDeliveries st.registry name
        ++ [st.nextHandlerId, st.nextHandlerId + 1] ∧
    (twoIdentities name name st).1.tracer
      ≠ (twoIdentities name name st).2.1.tracer ∧
    (twoIdentities name name st).1.id_generator
      ≠ (twoIdentities name name st).2.1.id_generator := by
  refine ⟨rfl, ?_, ?_, ?_⟩
  · show emitRecordDeliveries
        (create_service_telemetry name
          (create_service_telemetry name st).2).2.registry name = _
    unfold emitRecordDeliveries
    rw [getLoggerState_create, getLoggerState_create]
    simp [create_service_telemetry]
  · show st.nextProviderId ≠ (create_service_telemetry name st).2.nextProviderId
    show st.nextProviderId ≠ st.nextProviderId + 1
    omega
  · show st.generators.length
      ≠ (create_service_telemetry name st).2.generators.length
    show st.generators.length ≠ (st.generators ++ [SettableIdGenerator.mk']).length
    simp

/-- A lowercase hex digit character decodes back to the digit it encodes. -/
theorem hexVal_hexChar : ∀ d : Nat, d < 16 → hexVal (hexChar d) = d := by
  decide

/-- `hexChar` only produces lowercase hex digit characters. -/
theorem hexChar_lower : ∀ d : Nat, d < 16 →
    isLowerHexDigit (hexChar d) = true := by
  decide

/-- The rendering is fixed-width. -/
theorem toHexCore_length : ∀ (n w : Nat), (toHexCore n w).length = w := by
  intro n w
  induction w generalizing n with
  | zero => rfl
  | succ w ih => simp [toHexCore, ih]

/-- Every character of the rendering is a lowercase hex digit. -/
theorem toHexCore_lower : ∀ (w n : Nat), ∀ c ∈ toHexCore n w,
    isLowerHexDigit c = true := by
  intro w
  induction w with
  | zero =>
    intro n c hc
    simp [toHexCore] at hc
  | succ w ih =>
    intro n c hc
    rw [toHexCore, List.mem_append, List.mem_singleton] at hc
    rcases hc with hc | rfl
    · exact ih _ c hc
    · exact hexChar_lower _ (Nat.mod_lt _ (by norm_num))

/-- Re-parsing the fixed-width rendering of any value below `16 ^ w`
reproduces the value. -/
theorem fromHexChars_toHexCore : ∀ (w n : Nat), n < 16 ^ w →
    fromHexChars (toHexCore n w) = n := by
  intro w
  induction w with
  | zero =>
    intro n h
    have h1 : (16 : Nat) ^ 0 = 1 := rfl
    have h0 : n = 0 := by omega
    subst h0
    rfl
  | succ w ih =>
    intro n h
    have hdiv : n / 16 < 16 ^ w := by
      rw [Nat.div_lt_iff_lt_mul (by norm_num)]
      calc n < 16 ^ (w + 1) := h
        _ = 16 ^ w * 16 := by ring
    show fromHexChars (toHexCore (n / 16) w ++ [hexChar (n % 16)]) = n
    have hsplit : fromHexChars (toHexCore (n / 16) w ++ [hexChar (n % 16)])
        = 16 * fromHexChars (toHexCore (n / 16) w)
          + hexVal (hexChar (n % 16)) := by
      unfold fromHexChars
      rw [List.foldl_append]
      rfl
    rw [hsplit, ih _ hdiv, hexVal_hexChar _ (Nat.mod_lt _ (by norm_num))]
    exact Nat.div_add_mod n 16

/-- C7: the announcement is a pure round-trip-safe rendering: for every
128-bit identifier the announcer emits exactly two strings, each containing
the 32-character lowercase zero-padded hex encoding of the identifier, and
re-parsing that hex string reproduces the identifier exactly. -/
theorem announce_roundtrip (id : Nat) (h : id < 2 ^ 128) :
    (announceTrace (uuidHex id)).length = 2 ∧
    (∀ s ∈ announceTrace (uuidHex id), ∃ pre post : List Char,
      s.data = pre ++ (uuidHex id).data ++ post) ∧
    (uuidHex id).length = 32 ∧
    (∀ c ∈ (uuidHex id).data, isLowerHexDigit c = true) ∧
    fromHex (uuidHex id) = id := by
  refine ⟨rfl, ?_, toHexCore_length id 32, toHexCore_lower 32 id, ?_⟩
  · intro s hs
    rw [announceTrace, List.mem_cons, List.mem_singleton] at hs
    rcases hs with rfl | rfl
    · refine ⟨"Jaeger: http://localhost:16686/trace/".data, [], ?_⟩
      show ("Jaeger: http://localhost:16686/trace/" ++ uuidHex id).data = _
      rw [String.data_append]
      simp
    · refine ⟨kibanaPre.data, kibanaPost.data, ?_⟩
      show ((kibanaPre ++ uuidHex id) ++ kibanaPost).data = _
      rw [String.data_append, String.data_append, List.append_assoc]
  · have hb : id < 16 ^ 32 := by
      calc id < 2 ^ 128 := h
        _ = 16 ^ 32 := by norm_num
    exact fromHexChars_toHexCore 32 id hb

/-- Witness for the announcer round trip at identifier 1. -/
theorem announce_roundtrip_witness :
    (1 : Nat) < 2 ^ 128 ∧ fromHex (uuidHex 1) = 1 :=
  ⟨by norm_num, (announce_roundtrip 1 (by norm_num)).2.2.2.2⟩

/-- C6: in a streaming exchange of `n ≥ 2` configured messages where the
consumer closes right after receiving message 1, the producer emits message
1 and nothing further, records exactly one "cancelled" annotation, and the
consumer observes exactly the one message. -/
theorem streaming_cancel_after_first (n : Nat) (h : 2 ≤ n) :
    producerRun (closesAfter 1) n
      = [ProducerEvent.emit 1, ProducerEvent.cancelled] ∧
    messagesSeen (producerRun (closesAfter 1) n) = [1] ∧
    cancelCount (producerRun (closesAfter 1) n) = 1 := by
  obtain ⟨m, rfl⟩ : ∃ m, n = m + 2 := ⟨n - 2, by omega⟩
  have hmain : producerRun (closesAfter 1) (m + 2)
      = [ProducerEvent.emit 1, ProducerEvent.cancelled] := by
    show producerFrom (closesAfter 1) 1 (m + 2) = _
    rw [producerFrom, if_pos (by decide), producerFrom,
      if_neg (by decide)]
  exact ⟨hmain, by rw [hmain]; rfl, by rw [hmain]; rfl⟩

/-- Witness for the streaming cancellation theorem at three configured
messages. -/
theorem streaming_cancel_after_first_witness :
    2 ≤ 3 ∧ producerRun (closesAfter 1) 3
      = [ProducerEvent.emit 1, ProducerEvent.cancelled] :=
  ⟨by decide, (streaming_cancel_after_first 3 (by decide)).1⟩

end Observability
